import Mathlib

/-!
Shallow embedding of src/full-pipeline.ts (Effect-TS scraping pipeline).

Effects are modelled as explicit values: a computation is a pair of its
outcome (Except ScrapingError A) and the list of observable events it
performs (sleeps, browser launches, page opens/closes, navigations,
content reads).  Operations that are re-executed under retry are
functions from the attempt index to such a pair; for the concrete
session operation the outcome of each external primitive (browser
launch, page creation/authentication, navigation, closes) is supplied
by a Scenario value, so every fault-injection point of the source can
be exercised.

Raw page content is modelled at the DOM level (the value cheerio.load
produces from the content string): a document is its list of h1 texts
and its list of span texts in document order.  On a loaded document the
selector operations used by the source (text concatenation of matches,
per-element text) are total, which the embedding mirrors.
-/

/-- Tagged error union of the pipeline (Data.TaggedError classes,
src/full-pipeline.ts lines 79-120).  The untyped cause fields of the
source carry arbitrary JS values and are omitted; the optional
retryAfter and proxyId fields are kept.  -/
inductive ScrapingError where
  | networkError (message url : String)
  | timeoutError (message url : String) (timeout : Nat)
  | rateLimitError (message url : String) (retryAfter : Option Nat)
  | ipBlockError (message url : String) (proxyId : Option String)
  | browserError (message : String)
  | parseError (message : String)
deriving DecidableEq

/-- Discriminant field produced by Data.TaggedError (the class name). -/
def tagOf : ScrapingError → String
  | .networkError .. => "NetworkError"
  | .timeoutError .. => "TimeoutError"
  | .rateLimitError .. => "RateLimitError"
  | .ipBlockError .. => "IPBlockError"
  | .browserError .. => "BrowserError"
  | .parseError .. => "ParseError"

/-- Source lines 275-281: list of the retryable error tags. -/
def retryableErrors : List String :=
  ["NetworkError", "TimeoutError", "RateLimitError", "IPBlockError", "BrowserError"]

/-- Source lines 291-292: retryableErrors.includes(error._tag). -/
def isRetryableError (e : ScrapingError) : Bool :=
  retryableErrors.contains (tagOf e)

deriving instance DecidableEq for Except

/-- Source line 33. -/
def TARGET_URL : String := "https://quotes.toscrape.com/js/"

/-- Loaded-document view of the raw content string: the texts of the h1
elements and of the span elements, in document order. -/
structure Html where
  h1s : List String
  spans : List String
deriving DecidableEq

/-- Source lines 323-327. -/
structure ScrapingResult where
  title : String
  spans : List String
  url : String
deriving DecidableEq

/-- JS String.prototype.trim: removes whitespace characters from both
ends of the string. -/
def jsTrim (s : String) : String :=
  String.mk (((s.data.dropWhile Char.isWhitespace).reverse.dropWhile Char.isWhitespace).reverse)

/-- Source lines 331-352.  cheerio.load and the selector operations are
total on a loaded document, so the catch branch of Effect.try is
unreachable; the error type stays in the signature.  The h1 selection's
.text() concatenates the text of every match (empty string when there is
no match), then the source trims it; each span text is trimmed and empty
results are filtered out; url is the module constant TARGET_URL. -/
def parseHtml (html : Html) : Except ScrapingError ScrapingResult :=
  .ok { title := jsTrim (String.join html.h1s)
      , spans := (html.spans.map jsTrim).filter (fun s => decide (0 < s.length))
      , url := TARGET_URL }

/-- Source lines 52-57. -/
structure ProxyConfig where
  host : String
  port : Nat
  username : String
  password : String
deriving DecidableEq

/-- Environment-sourced Bright Data credentials (source lines 41-47;
a process.env entry is either absent or a string). -/
structure BrightDataEnv where
  customerId : Option String
  zone : Option String
  password : Option String

/-- JS truthiness of an optional environment string: undefined and the
empty string are falsy. -/
def truthyEnv : Option String → Bool
  | some s => decide (s ≠ "")
  | none => false

/-- Source lines 49-50. -/
def isBrightDataConfigured (env : BrightDataEnv) : Bool :=
  truthyEnv env.customerId && truthyEnv env.zone && truthyEnv env.password

/-- Source lines 59-70. -/
def buildProxyConfig (env : BrightDataEnv) : Option ProxyConfig :=
  if isBrightDataConfigured env then
    match env.customerId, env.zone, env.password with
    | some cid, some zone, some pw =>
      some { host := "brd.superproxy.io", port := 33335
           , username := "brd-customer-" ++ cid ++ "-zone-" ++ zone
           , password := pw }
    | _, _, _ => none
  else none

/-- Observable events of one pipeline execution. -/
inductive Event where
  | resolveProxy
  | sleep (millis : Nat)
  | launchBrowser
  | closeBrowser
  | newPage
  | closePage
  | gotoUrl (url : String)
  | getContent
deriving DecidableEq

/-- Outcome of the page.goto navigation supplied by the environment:
a response object with an HTTP status (carrying the rendered document
the subsequent page.content() read would produce), a null response
(page.goto may resolve without a response object), or a thrown
navigation error whose message does or does not contain the substring
timeout. -/
inductive NavOutcome where
  | response (status : Nat) (content : Html)
  | noResponse (content : Html)
  | thrown (timeoutText : Bool)
deriving DecidableEq

/-- Fault-injection outcomes for the external browser primitives during
one attempt of the session operation. -/
structure Scenario where
  launchOk : Bool
  newPageOk : Bool
  nav : NavOutcome
  pageCloseOk : Bool
  browserCloseOk : Bool
deriving DecidableEq

/-- Source lines 128-152: Effect.tryPromise around puppeteer.launch;
failure becomes a BrowserError whose message depends on whether a proxy
is configured. -/
def launchBrowser (proxy : Option ProxyConfig) (ok : Bool) :
    Except ScrapingError Unit × List Event :=
  if ok then (.ok (), [.launchBrowser])
  else
    (.error (.browserError
      (match proxy with
       | some _ => "Failed to launch browser with Bright Data proxy"
       | none => "Failed to launch browser")), [.launchBrowser])

/-- Source lines 166-179: acquire step of the page scope; creates the
page and (when a proxy is configured) authenticates it; any failure
becomes the one BrowserError below. -/
def newPageEffect (ok : Bool) : Except ScrapingError Unit × List Event :=
  if ok then (.ok (), [.newPage])
  else (.error (.browserError "Failed to create page or authenticate"), [.newPage])

/-- Source lines 190-210: the HTTP status checks performed on a non-null
response, in source order: 429, then 403, then any status of at least
400, otherwise no failure. -/
def classifyStatus (status : Nat) (url : String) : Option ScrapingError :=
  if status = 429 then some (.rateLimitError ("Rate limited: " ++ url) url none)
  else if status = 403 then some (.ipBlockError ("IP blocked: " ++ url) url none)
  else if 400 ≤ status then
    some (.networkError ("HTTP error " ++ toString status ++ ": " ++ url) url)
  else none

/-- Source lines 181-233: the use step of the page scope.  Navigates,
classifies the status of a non-null response before the content is
read, reads the content otherwise; a thrown navigation error whose
message contains the substring timeout becomes a TimeoutError carrying
the caller's timeout (not the 30s-floored effective one), any other
thrown error becomes a BrowserError. -/
def navigateUse (url : String) (timeout : Nat) (nav : NavOutcome) :
    Except ScrapingError Html × List Event :=
  match nav with
  | .thrown true =>
    (.error (.timeoutError ("Navigation timeout after " ++ toString timeout ++ "ms")
      url timeout), [.gotoUrl url])
  | .thrown false =>
    (.error (.browserError "Failed to navigate or get content"), [.gotoUrl url])
  | .response status content =>
    match classifyStatus status url with
    | some e => (.error e, [.gotoUrl url])
    | none => (.ok content, [.gotoUrl url, .getContent])
  | .noResponse content => (.ok content, [.gotoUrl url, .getContent])

/-- Effect.tryPromise around a close call: the close is attempted (its
event is recorded) and may fail with a plain Error message. -/
def tryClose (ev : Event) (message : String) (ok : Bool) :
    Except String Unit × List Event :=
  if ok then (.ok (), [ev]) else (.error message, [ev])

/-- Effect.catchAll (() => Effect.void): every failure of the wrapped
computation is recovered and discarded; the resulting error type is
uninhabited (never). -/
def catchAllVoid (x : Except String Unit × List Event) :
    Except Empty Unit × List Event :=
  match x with
  | (.ok _, t) => (.ok (), t)
  | (.error _, t) => (.ok (), t)

/-- Source lines 235-242: release step of the page scope. -/
def closePageRelease (ok : Bool) : Except Empty Unit × List Event :=
  catchAllVoid (tryClose .closePage "Failed to close page" ok)

/-- Source lines 258-265: release step of the browser scope. -/
def closeBrowserRelease (ok : Bool) : Except Empty Unit × List Event :=
  catchAllVoid (tryClose .closeBrowser "Failed to close browser" ok)

/-- Effect.acquireUseRelease: when the acquire step fails nothing else
runs; when it succeeds the use step runs and then the release step runs
unconditionally; the release step's error type is never, so the use
step's outcome is the outcome of the whole. -/
def acquireUseRelease {E A B : Type} (acquire : Except E A × List Event)
    (use : A → Except E B × List Event)
    (release : A → Except Empty Unit × List Event) :
    Except E B × List Event :=
  match acquire with
  | (.error e, t) => (.error e, t)
  | (.ok a, t) =>
    let u := use a
    (u.1, t ++ u.2 ++ (release a).2)

/-- Source lines 158-243: the page scope (acquire page, navigate and
read content, always close the page).  The proxy only affects the
authentication inside the acquire step, whose outcome the scenario's
newPageOk already fixes. -/
def navigatePageAndGetContent (sc : Scenario) (url : String) (timeout : Nat) :
    Except ScrapingError Html × List Event :=
  acquireUseRelease (newPageEffect sc.newPageOk)
    (fun _ => navigateUse url timeout sc.nav)
    (fun _ => closePageRelease sc.pageCloseOk)

/-- Source lines 247-267: the browser scope (launch browser, run the
page scope, always close the browser).  The proxy configuration is
resolved by the caller (source line 251 runs buildProxyConfig eagerly,
before the effect value is built). -/
def scrapeUrl (proxy : Option ProxyConfig) (sc : Scenario) (url : String)
    (timeout : Nat) : Except ScrapingError Html × List Event :=
  acquireUseRelease (launchBrowser proxy sc.launchOk)
    (fun _ => navigatePageAndGetContent sc url timeout)
    (fun _ => closeBrowserRelease sc.browserCloseOk)

/-- Source line 287: Schedule.exponential(Duration.seconds(1)) with the
default factor 2 produces, for its i-th recurrence (0-indexed), the
delay base times factor to the i, in milliseconds; Duration.seconds(1)
is 1000 milliseconds. -/
def expDelayMillis (i : Nat) : Nat := 1000 * 2 ^ i

/-- Source line 288: Schedule.recurs(3), the recursion bound the
exponential schedule is intersected with. -/
def scheduleRecurs : Nat := 3

/-- Driver of Effect.retry(effect, { schedule, until }) for the
schedule of source lines 286-289 (exponential delays intersected with a
recursion bound; an intersection recurs only while both schedules do
and waits for the longer delay, and Schedule.recurs contributes no
delay).  The operation runs; on an error on which the until predicate
holds, retrying stops and that error is returned; otherwise, while
recursions remain, the schedule's delay for this recurrence is slept
and the operation is re-executed.  The third component counts how often
the operation was invoked. -/
def retryLoop {α : Type} (op : Nat → Except ScrapingError α × List Event)
    (untilP : ScrapingError → Bool) :
    Nat → Nat → Except ScrapingError α × List Event × Nat
  | 0, i =>
    let r := op i
    (r.1, r.2, 1)
  | retriesLeft + 1, i =>
    match op i with
    | (.ok a, t) => (.ok a, t, 1)
    | (.error e, t) =>
      if untilP e then (.error e, t, 1)
      else
        let rest := retryLoop op untilP retriesLeft (i + 1)
        (rest.1, t ++ .sleep (expDelayMillis i) :: rest.2.1, rest.2.2 + 1)

/-- Source lines 297-303: Effect.retry with the retryPolicy schedule
and the until predicate isRetryableError. -/
def retryIfRetryable {α : Type} (op : Nat → Except ScrapingError α × List Event) :
    Except ScrapingError α × List Event × Nat :=
  retryLoop op isRetryableError scheduleRecurs 0

/-- Source lines 311-317: Effect.sleep for 100 milliseconds, then the
wrapped effect. -/
def withSimpleRateLimit {α : Type} (x : Except ScrapingError α × List Event) :
    Except ScrapingError α × List Event :=
  (x.1, .sleep 100 :: x.2)

/-- The retried fetch of source line 358-359:
retryIfRetryable(withSimpleRateLimit(scrapeUrl(TARGET_URL, { timeout:
30000 }))), with the proxy resolved once from the environment when the
scrapeUrl effect value is built (source line 251). -/
def fetchWithRetry (env : BrightDataEnv) (scs : Nat → Scenario) :
    Except ScrapingError Html × List Event × Nat :=
  retryIfRetryable
    (fun i => withSimpleRateLimit (scrapeUrl (buildProxyConfig env) (scs i) TARGET_URL 30000))

/-- Source lines 356-361 with the extraction step abstracted: the
retried rate-limited fetch, flat-mapped into the extraction function on
success.  The resolveProxy event records the single eager
buildProxyConfig evaluation that happens when the pipeline is built,
before any attempt runs. -/
def scrapeWithRetryGen (env : BrightDataEnv) (scs : Nat → Scenario)
    (extract : Html → Except ScrapingError ScrapingResult) :
    Except ScrapingError ScrapingResult × List Event × Nat :=
  match fetchWithRetry env scs with
  | (.ok html, t, n) =>
    (match extract html with
     | .ok r => (.ok r, .resolveProxy :: t, n)
     | .error e => (.error e, .resolveProxy :: t, n))
  | (.error e, t, n) => (.error e, .resolveProxy :: t, n)

/-- Source lines 356-361: the composed pipeline with the concrete
extraction step parseHtml. -/
def scrapeWithRetry (env : BrightDataEnv) (scs : Nat → Scenario) :
    Except ScrapingError ScrapingResult × List Event × Nat :=
  scrapeWithRetryGen env scs parseHtml

/-- Wrapper structure of the composed pipeline, used to compare the
composition order of the source with the one the specification states:
a fetch operation, optionally wrapped by the rate limiter and by the
retry scheduler, flat-mapped into the extraction step. -/
inductive PipelineShape where
  | runFetch
  | rateLimit (inner : PipelineShape)
  | retryWrap (inner : PipelineShape)
  | thenExtract (inner : PipelineShape)
deriving DecidableEq

/-- Composition order of source lines 356-361:
pipe(withSimpleRateLimit(scrapeUrl(TARGET_URL)), retryIfRetryable,
Effect.flatMap(parseHtml)). -/
def codePipelineShape : PipelineShape :=
  .thenExtract (.retryWrap (.rateLimit .runFetch))

/-- Modelled from the spec: section 4.7 gives the order
withRateLimit(withRetry(runFetch, retryPolicy)) followed on success by
extract, that is the rate limiter outside the retry scheduler. -/
def specPipelineShape : PipelineShape :=
  .thenExtract (.rateLimit (.retryWrap .runFetch))

/-- Recognizer for backoff and rate-limit suspension events. -/
def isSleepEvent : Event → Bool
  | .sleep _ => true
  | _ => false

/-- Environment with no Bright Data credentials: the scraper runs
without a proxy. -/
def envNoProxy : BrightDataEnv := ⟨none, none, none⟩

/-- Scenario whose single navigation yields an HTTP 500 response. -/
def scenarioHttp500 : Scenario :=
  { launchOk := true, newPageOk := true, nav := .response 500 ⟨[], []⟩
  , pageCloseOk := true, browserCloseOk := true }

/-- Document with no heading element and one non-empty span. -/
def docNoHeading : Html := { h1s := [], spans := ["q1"] }

/-- Scenario whose single navigation succeeds (HTTP 200) with a
document that has no heading element. -/
def scenarioNoHeading : Scenario :=
  { launchOk := true, newPageOk := true, nav := .response 200 docNoHeading
  , pageCloseOk := true, browserCloseOk := true }

/-- Operation that fails with a ParseError on its first attempt and
succeeds afterwards; ParseError is the one error kind on which the
until predicate of the source's retry wrapper does not hold. -/
def opParseErrorOnce : Nat → Except ScrapingError Html × List Event :=
  fun i => if i = 0 then (.error (.parseError "m"), []) else (.ok ⟨[], []⟩, [])

/-- Operation that fails with a ParseError on every attempt. -/
def opParseErrorAlways : Nat → Except ScrapingError Html × List Event :=
  fun _ => (.error (.parseError "m"), [])

/-- Extraction step that always fails with a ParseError. -/
def extractParseFail : Html → Except ScrapingError ScrapingResult :=
  fun _ => .error (.parseError "Failed to parse HTML")

theorem isRetryableError_networkError (m u : String) :
    isRetryableError (.networkError m u) = true := rfl

theorem isRetryableError_timeoutError (m u : String) (t : Nat) :
    isRetryableError (.timeoutError m u t) = true := rfl

theorem isRetryableError_rateLimitError (m u : String) (r : Option Nat) :
    isRetryableError (.rateLimitError m u r) = true := rfl

theorem isRetryableError_ipBlockError (m u : String) (p : Option String) :
    isRetryableError (.ipBlockError m u p) = true := rfl

theorem isRetryableError_browserError (m : String) :
    isRetryableError (.browserError m) = true := rfl

theorem isRetryableError_parseError (m : String) :
    isRetryableError (.parseError m) = false := rfl

theorem classifyStatus_retryable (status : Nat) (url : String) (e : ScrapingError)
    (h : classifyStatus status url = some e) : isRetryableError e = true := by
  unfold classifyStatus at h
  split at h
  · cases h; rfl
  · split at h
    · cases h; rfl
    · split at h
      · cases h; rfl
      · cases h

theorem navigateUse_error_retryable (url : String) (timeout : Nat) (nav : NavOutcome)
    (e : ScrapingError) (h : (navigateUse url timeout nav).1 = .error e) :
    isRetryableError e = true := by
  rcases nav with ⟨status, c⟩ | c | tb
  · simp only [navigateUse] at h
    rcases hc : classifyStatus status url with _ | e2 <;> rw [hc] at h
    · simp at h
    · simp at h
      subst h
      exact classifyStatus_retryable status url _ hc
  · simp [navigateUse] at h
  · cases tb <;> simp [navigateUse] at h <;> cases h <;> rfl

theorem scrapeUrl_error_retryable (proxy : Option ProxyConfig) (sc : Scenario)
    (url : String) (timeout : Nat) (e : ScrapingError)
    (h : (scrapeUrl proxy sc url timeout).1 = .error e) :
    isRetryableError e = true := by
  rcases sc with ⟨lo, po, nav, pc, bc⟩
  cases lo
  · simp [scrapeUrl, acquireUseRelease, launchBrowser] at h
    cases h; rfl
  · cases po
    · simp [scrapeUrl, acquireUseRelease, launchBrowser, navigatePageAndGetContent,
        newPageEffect] at h
      cases h; rfl
    · simp only [scrapeUrl, acquireUseRelease, launchBrowser, navigatePageAndGetContent,
        newPageEffect, if_true] at h
      exact navigateUse_error_retryable url timeout nav e h

/-- C1: code-bug evidence.  A pipeline run whose single navigation
yields HTTP 500 fails with a NetworkError that the retry predicate
classifies as retryable, and the retry policy has all three recursions
available; yet the composed pipeline invokes the operation exactly
once, performs no backoff sleep, and returns that first failure: the
source passes isRetryableError as the until option of Effect.retry,
which stops retrying precisely when the predicate holds, so retryable
failures are never re-executed. -/
theorem C1_retry_bug_eval :
    isRetryableError (.networkError ("HTTP error 500: " ++ TARGET_URL) TARGET_URL) = true
    ∧ scrapeWithRetry envNoProxy (fun _ => scenarioHttp500)
      = (.error (.networkError ("HTTP error 500: " ++ TARGET_URL) TARGET_URL),
         [.resolveProxy, .sleep 100, .launchBrowser, .newPage, .gotoUrl TARGET_URL,
          .closePage, .closeBrowser], 1) := by
  constructor
  · rfl
  · decide

/-- C3: counterexample.  The source composes the pipeline as
retryIfRetryable(withSimpleRateLimit(fetch)) flat-mapped into the
extraction step (source lines 356-361), which is not the composition
withRateLimit(withRetry(fetch)) the claim states: the rate limiter sits
inside the retried region, not outside it. -/
theorem C3_shape_cex : codePipelineShape ≠ specPipelineShape := by decide

/-- C4: counterexample.  Running the source's retry wrapper on an
operation whose first attempt fails with a ParseError (the one error
kind its until predicate lets it retry) shows the backoff slept before
attempt 2 is the schedule's first delay of 1000 milliseconds, not
baseDelay times multiplier to the power (2 - 1) = 2000 milliseconds as
the claim's formula requires. -/
theorem C4_backoff_cex :
    retryIfRetryable opParseErrorOnce
      = (.ok ⟨[], []⟩, [.sleep (expDelayMillis 0)], 2)
    ∧ expDelayMillis 0 ≠ 1000 * 2 ^ (2 - 1) := by decide

/-- C7: counterexample.  A pipeline run whose fetched content contains
no heading element ends in success with an empty title, not in a
ParseFault failure: cheerio's text() on an empty h1 selection returns
the empty string and parseHtml throws nothing. -/
theorem C7_no_heading_cex :
    scrapeWithRetry envNoProxy (fun _ => scenarioNoHeading)
      = (.ok { title := "", spans := ["q1"], url := TARGET_URL },
         [.resolveProxy, .sleep 100, .launchBrowser, .newPage, .gotoUrl TARGET_URL,
          .getContent, .closePage, .closeBrowser], 1) := by decide

/-- C9: when page.goto resolves without a response object, the status
classification is skipped entirely and the rendered content is returned
as a success, both at the navigation step and through the whole page
scope. -/
theorem C9_null_response (url : String) (timeout : Nat) (content : Html) (b : Bool) :
    navigateUse url timeout (.noResponse content)
      = (.ok content, [.gotoUrl url, .getContent])
    ∧ navigatePageAndGetContent
        { launchOk := true, newPageOk := true, nav := .noResponse content
        , pageCloseOk := b, browserCloseOk := true } url timeout
      = (.ok content, [.newPage, .gotoUrl url, .getContent, .closePage]) := by
  refine ⟨rfl, ?_⟩
  cases b <;> rfl

/-- C10: for every input document, the url field parseHtml returns is
the module constant TARGET_URL, the literal target address, regardless
of the content and of which URL was actually fetched. -/
theorem C10_url_constant (html : Html) :
    (parseHtml html).map ScrapingResult.url = .ok TARGET_URL
    ∧ TARGET_URL = "https://quotes.toscrape.com/js/" := ⟨rfl, rfl⟩

theorem closePageRelease_trace (ok : Bool) :
    (closePageRelease ok).2 = [Event.closePage] := by cases ok <;> rfl

theorem closeBrowserRelease_trace (ok : Bool) :
    (closeBrowserRelease ok).2 = [Event.closeBrowser] := by cases ok <;> rfl

theorem scrapeUrl_trace (proxy : Option ProxyConfig) (sc : Scenario) (url : String)
    (timeout : Nat) :
    (scrapeUrl proxy sc url timeout).2 =
      if sc.launchOk then
        if sc.newPageOk then
          [Event.launchBrowser] ++ ([Event.newPage] ++ (navigateUse url timeout sc.nav).2
            ++ [Event.closePage]) ++ [Event.closeBrowser]
        else [Event.launchBrowser] ++ [Event.newPage] ++ [Event.closeBrowser]
      else [Event.launchBrowser] := by
  rcases sc with ⟨lo, po, nav, pc, bc⟩
  cases lo <;> cases po <;>
    simp [scrapeUrl, acquireUseRelease, launchBrowser, navigatePageAndGetContent,
      newPageEffect, closePageRelease_trace, closeBrowserRelease_trace]

theorem scrapeUrl_result (proxy : Option ProxyConfig) (sc : Scenario) (url : String)
    (timeout : Nat) :
    (scrapeUrl proxy sc url timeout).1 =
      if sc.launchOk then
        if sc.newPageOk then (navigateUse url timeout sc.nav).1
        else .error (.browserError "Failed to create page or authenticate")
      else
        .error (.browserError
          (match proxy with
           | some _ => "Failed to launch browser with Bright Data proxy"
           | none => "Failed to launch browser")) := by
  rcases sc with ⟨lo, po, nav, pc, bc⟩
  cases lo <;> cases po <;>
    simp [scrapeUrl, acquireUseRelease, launchBrowser, navigatePageAndGetContent,
      newPageEffect]

theorem navigateUse_filter_closes (url : String) (timeout : Nat) (nav : NavOutcome) :
    (navigateUse url timeout nav).2.filter
      (fun e => e == Event.closePage || e == Event.closeBrowser) = [] := by
  rcases nav with ⟨status, c⟩ | c | tb
  · simp only [navigateUse]
    rcases classifyStatus status url with _ | e <;> simp
  · simp [navigateUse]
  · cases tb <;> simp [navigateUse]

/-- C2: for every execution of the session operation, the page close
and browser close each happen exactly once when (and only when) the
corresponding acquisition succeeded, in reverse order of acquisition
(the trace restricted to close events is the page close followed by the
browser close); the operation's outcome does not depend on whether the
close calls fail; and the recovered release steps themselves never
fail, so a close failure is discarded rather than propagated. -/
theorem C2_session_release (proxy : Option ProxyConfig) (sc : Scenario) (url : String)
    (timeout : Nat) :
    ((scrapeUrl proxy sc url timeout).2.filter
        (fun e => e == Event.closePage || e == Event.closeBrowser))
      = ((if sc.launchOk && sc.newPageOk then [Event.closePage] else [])
          ++ (if sc.launchOk then [Event.closeBrowser] else []))
    ∧ (∀ b1 b2 : Bool,
        (scrapeUrl proxy { sc with pageCloseOk := b1, browserCloseOk := b2 } url timeout).1
          = (scrapeUrl proxy sc url timeout).1)
    ∧ (∀ ok : Bool,
        (closePageRelease ok).1 = Except.ok () ∧ (closeBrowserRelease ok).1 = Except.ok ()) := by
  refine ⟨?_, ?_, ?_⟩
  · rw [scrapeUrl_trace]
    rcases sc with ⟨lo, po, nav, pc, bc⟩
    cases lo <;> cases po <;>
      simp [List.filter_append, navigateUse_filter_closes]
  · intro b1 b2
    rw [scrapeUrl_result, scrapeUrl_result]
  · intro ok
    cases ok <;> exact ⟨rfl, rfl⟩

theorem retryLoop_attempts_sleeps {α : Type}
    (op : Nat → Except ScrapingError α × List Event)
    (untilP : ScrapingError → Bool)
    (hop : ∀ i, (op i).2.filter isSleepEvent = []) :
    ∀ fuel i,
      1 ≤ (retryLoop op untilP fuel i).2.2
      ∧ (retryLoop op untilP fuel i).2.2 ≤ fuel + 1
      ∧ (retryLoop op untilP fuel i).2.1.filter isSleepEvent
          = (List.range ((retryLoop op untilP fuel i).2.2 - 1)).map
              (fun j => Event.sleep (expDelayMillis (i + j))) := by
  intro fuel
  induction fuel with
  | zero =>
    intro i
    simp [retryLoop, hop i]
  | succ f ih =>
    intro i
    rcases h : op i with ⟨r, t⟩
    have ht : t.filter isSleepEvent = [] := by
      have := hop i
      rw [h] at this
      exact this
    cases r with
    | ok a =>
      simp [retryLoop, h, ht]
    | error e =>
      by_cases hu : untilP e = true
      · simp [retryLoop, h, hu, ht]
      · have hu2 : untilP e = false := by
          cases he : untilP e
          · rfl
          · exact absurd he hu
        obtain ⟨h1, h2, h3⟩ := ih (i + 1)
        obtain ⟨m, hm⟩ : ∃ m, (retryLoop op untilP f (i + 1)).2.2 = m + 1 :=
          ⟨(retryLoop op untilP f (i + 1)).2.2 - 1, by omega⟩
        have hfun : (fun j => Event.sleep (expDelayMillis (i + 1 + j)))
            = (fun j => Event.sleep (expDelayMillis (i + Nat.succ j))) := by
          funext j
          exact congrArg (fun n => Event.sleep (expDelayMillis n)) (by omega)
        refine ⟨?_, ?_, ?_⟩
        · simp [retryLoop, h, hu2]
        · simp only [retryLoop, h, hu2]
          simp only [Bool.false_eq_true, if_false]
          omega
        · simp only [retryLoop, h, hu2]
          simp only [Bool.false_eq_true, if_false]
          rw [List.filter_append, ht, List.nil_append, List.filter_cons]
          simp only [isSleepEvent, if_true]
          rw [h3, hm]
          simp only [Nat.add_sub_cancel, List.range_succ_eq_map, List.map_cons,
            Nat.add_zero, List.map_map]
          refine congrArg₂ List.cons rfl ?_
          rw [hm] at h3
          simp only [Nat.add_sub_cancel] at h3
          rw [Function.comp_def, ← hfun]

/-- C4 (amended): under the source's retry policy (exponential backoff
with one-second base intersected with a bound of three recursions), for
every operation and every stop predicate the operation is invoked at
least once and at most four times (one initial attempt plus at most
scheduleRecurs retries), and the backoff delays slept are exactly, in
order, the schedule's delays for recurrences 0, 1, ...: the delay slept
before attempt n (1-indexed, n of at least 2) is baseDelay times
multiplier to the power (n - 2), that is 1000, 2000, 4000 milliseconds
before attempts 2, 3, 4 with the default policy. -/
theorem C4_backoff_policy {α : Type}
    (op : Nat → Except ScrapingError α × List Event)
    (untilP : ScrapingError → Bool)
    (hop : ∀ i, (op i).2.filter isSleepEvent = []) :
    1 ≤ (retryLoop op untilP scheduleRecurs 0).2.2
    ∧ (retryLoop op untilP scheduleRecurs 0).2.2 ≤ scheduleRecurs + 1
    ∧ (retryLoop op untilP scheduleRecurs 0).2.1.filter isSleepEvent
        = (List.range ((retryLoop op untilP scheduleRecurs 0).2.2 - 1)).map
            (fun j => Event.sleep (expDelayMillis j)) := by
  obtain ⟨h1, h2, h3⟩ := retryLoop_attempts_sleeps op untilP hop scheduleRecurs 0
  refine ⟨h1, h2, ?_⟩
  rw [h3]
  simp [Nat.zero_add]

/-- C4 (amended), witnessed at the operation that always fails with a
ParseError: four attempts happen and the backoff delays are 1000, 2000
and 4000 milliseconds. -/
theorem C4_backoff_policy_witness :
    1 ≤ (retryLoop opParseErrorAlways isRetryableError scheduleRecurs 0).2.2
    ∧ (retryLoop opParseErrorAlways isRetryableError scheduleRecurs 0).2.2
        ≤ scheduleRecurs + 1
    ∧ (retryLoop opParseErrorAlways isRetryableError scheduleRecurs 0).2.1.filter isSleepEvent
        = (List.range ((retryLoop opParseErrorAlways isRetryableError scheduleRecurs 0).2.2 - 1)).map
            (fun j => Event.sleep (expDelayMillis j)) :=
  C4_backoff_policy opParseErrorAlways isRetryableError (fun _ => rfl)

/-- C3 (amended): the composed pipeline resolves the proxy once when it
is built, then the retry wrapper wraps the rate-limited fetch
(retryIfRetryable applied to withSimpleRateLimit applied to scrapeUrl),
and on success extraction runs; the fixed 100ms rate-limit delay
therefore sits inside the retried region, at the start of each attempt,
and because every failure the fetch can produce satisfies the retry
wrapper's until predicate exactly one attempt runs per invocation, so
the delay is slept exactly once, after proxy resolution and before the
single fetch attempt. -/
theorem C3_order_amended (env : BrightDataEnv) (scs : Nat → Scenario) :
    (scrapeWithRetry env scs).2.2 = 1
    ∧ (scrapeWithRetry env scs).2.1
        = .resolveProxy :: .sleep 100
            :: (scrapeUrl (buildProxyConfig env) (scs 0) TARGET_URL 30000).2 := by
  have h3 : scheduleRecurs = 2 + 1 := rfl
  unfold scrapeWithRetry scrapeWithRetryGen fetchWithRetry retryIfRetryable
  rw [h3]
  rcases hsc : scrapeUrl (buildProxyConfig env) (scs 0) TARGET_URL 30000 with ⟨r, t⟩
  cases r with
  | ok html =>
    simp [retryLoop, withSimpleRateLimit, hsc, parseHtml]
  | error e =>
    have hret : isRetryableError e = true :=
      scrapeUrl_error_retryable (buildProxyConfig env) (scs 0) TARGET_URL 30000 e
        (by rw [hsc])
    simp [retryLoop, withSimpleRateLimit, hsc, hret]

/-- C5: the HTTP status classification is total and exact (429 yields
RateLimited, 403 yields IPBlocked, any other status of at least 400
yields Network, anything below 400 yields no failure from this check),
and it runs before the content is read: on a classified failure the
navigation step fails with exactly that error and performs no content
read, whatever rendered body the response carries; only an
unclassified status reads the content. -/
theorem C5_status_classification (status : Nat) (url : String) (timeout : Nat)
    (content : Html) :
    (status = 429 →
      classifyStatus status url = some (.rateLimitError ("Rate limited: " ++ url) url none))
    ∧ (status = 403 →
      classifyStatus status url = some (.ipBlockError ("IP blocked: " ++ url) url none))
    ∧ (status ≠ 429 → status ≠ 403 → 400 ≤ status →
      classifyStatus status url
        = some (.networkError ("HTTP error " ++ toString status ++ ": " ++ url) url))
    ∧ (status < 400 → classifyStatus status url = none)
    ∧ (∀ e, classifyStatus status url = some e →
      navigateUse url timeout (.response status content) = (.error e, [.gotoUrl url]))
    ∧ (classifyStatus status url = none →
      navigateUse url timeout (.response status content)
        = (.ok content, [.gotoUrl url, .getContent])) := by
  refine ⟨?_, ?_, ?_, ?_, ?_, ?_⟩
  · intro h
    subst h
    rfl
  · intro h
    subst h
    rfl
  · intro h429 h403 h400
    unfold classifyStatus
    rw [if_neg h429, if_neg h403, if_pos h400]
  · intro h
    unfold classifyStatus
    rw [if_neg (by omega), if_neg (by omega), if_neg (by omega)]
  · intro e h
    simp only [navigateUse]
    rw [h]
  · intro h
    simp only [navigateUse]
    rw [h]

/-- C5, witnessed at status 429: the classification is RateLimited and
the navigation step fails before reading the body. -/
theorem C5_status_classification_witness :
    classifyStatus 429 TARGET_URL
      = some (.rateLimitError ("Rate limited: " ++ TARGET_URL) TARGET_URL none)
    ∧ navigateUse TARGET_URL 30000 (.response 429 docNoHeading)
      = (.error (.rateLimitError ("Rate limited: " ++ TARGET_URL) TARGET_URL none),
         [.gotoUrl TARGET_URL]) :=
  ⟨(C5_status_classification 429 TARGET_URL 30000 docNoHeading).1 rfl,
   (C5_status_classification 429 TARGET_URL 30000 docNoHeading).2.2.2.2.1 _
     ((C5_status_classification 429 TARGET_URL 30000 docNoHeading).1 rfl)⟩

/-- C6: extraction is composed after the retry wrapper, so an
extraction failure can never re-execute the fetch: for every extraction
function, the pipeline's event trace and attempt count are exactly the
proxy resolution followed by those of the retried fetch alone, and
when the fetch succeeds and extraction fails with a ParseFault that
failure is the pipeline's result, propagated without any further
attempt. -/
theorem C6_parse_never_retried (env : BrightDataEnv) (scs : Nat → Scenario)
    (extract : Html → Except ScrapingError ScrapingResult) :
    (scrapeWithRetryGen env scs extract).2.1
      = .resolveProxy :: (fetchWithRetry env scs).2.1
    ∧ (scrapeWithRetryGen env scs extract).2.2 = (fetchWithRetry env scs).2.2
    ∧ (∀ html e, (fetchWithRetry env scs).1 = .ok html → extract html = .error e →
        (scrapeWithRetryGen env scs extract).1 = .error e) := by
  rcases hf : fetchWithRetry env scs with ⟨r, t, n⟩
  refine ⟨?_, ?_, ?_⟩
  · cases r with
    | ok html => cases hx : extract html <;> simp [scrapeWithRetryGen, hf, hx]
    | error e => simp [scrapeWithRetryGen, hf]
  · cases r with
    | ok html => cases hx : extract html <;> simp [scrapeWithRetryGen, hf, hx]
    | error e => simp [scrapeWithRetryGen, hf]
  · intro html2 e h1 h2
    cases r with
    | ok html =>
      simp at h1
      subst h1
      simp [scrapeWithRetryGen, hf, h2]
    | error e3 => simp at h1

/-- C6, witnessed with an always-failing extraction step on a
successful fetch: the pipeline returns the ParseError and its trace and
attempt count are those of the fetch alone. -/
theorem C6_parse_never_retried_witness :
    (scrapeWithRetryGen envNoProxy (fun _ => scenarioNoHeading) extractParseFail).1
      = .error (.parseError "Failed to parse HTML") :=
  (C6_parse_never_retried envNoProxy (fun _ => scenarioNoHeading) extractParseFail).2.2
    docNoHeading _ (by decide) rfl

theorem join_singleton (t : String) : String.join [t] = t := by
  cases t
  rfl

/-- C7 (amended): when the content reaching extraction contains no
heading element, extraction succeeds with an empty title (cheerio's
text() of the empty h1 selection is the empty string, trimmed to the
empty string) and the pipeline's result is that success, not a
ParseFault failure; the single attempt is also the only one, so no
retry occurs. -/
theorem C7_no_heading_amended (doc : Html) (b1 b2 : Bool) (h : doc.h1s = []) :
    (∃ r, parseHtml doc = .ok r ∧ r.title = "" ∧ r.url = TARGET_URL)
    ∧ (scrapeWithRetry envNoProxy
        (fun _ => ⟨true, true, .response 200 doc, b1, b2⟩)).2.2 = 1
    ∧ (∃ r, (scrapeWithRetry envNoProxy
        (fun _ => ⟨true, true, .response 200 doc, b1, b2⟩)).1 = .ok r
        ∧ r.title = "") := by
  rcases doc with ⟨h1s, spans⟩
  simp only at h
  subst h
  have htitle : jsTrim (String.join ([] : List String)) = "" := rfl
  refine ⟨⟨{ title := jsTrim (String.join ([] : List String))
           , spans := (spans.map jsTrim).filter (fun s => decide (0 < s.length))
           , url := TARGET_URL }, rfl, htitle, rfl⟩, ?_, ?_⟩
  · have h3 : scheduleRecurs = 2 + 1 := rfl
    unfold scrapeWithRetry scrapeWithRetryGen fetchWithRetry retryIfRetryable
    rw [h3]
    have hsc : scrapeUrl (buildProxyConfig envNoProxy)
        (⟨true, true, .response 200 ⟨[], spans⟩, b1, b2⟩ : Scenario) TARGET_URL 30000
        = (.ok ⟨[], spans⟩,
           [.launchBrowser, .newPage, .gotoUrl TARGET_URL, .getContent,
            .closePage, .closeBrowser]) := by
      cases b1 <;> cases b2 <;> rfl
    simp [retryLoop, withSimpleRateLimit, hsc, parseHtml]
  · have h3 : scheduleRecurs = 2 + 1 := rfl
    unfold scrapeWithRetry scrapeWithRetryGen fetchWithRetry retryIfRetryable
    rw [h3]
    have hsc : scrapeUrl (buildProxyConfig envNoProxy)
        (⟨true, true, .response 200 ⟨[], spans⟩, b1, b2⟩ : Scenario) TARGET_URL 30000
        = (.ok ⟨[], spans⟩,
           [.launchBrowser, .newPage, .gotoUrl TARGET_URL, .getContent,
            .closePage, .closeBrowser]) := by
      cases b1 <;> cases b2 <;> rfl
    simp [retryLoop, withSimpleRateLimit, hsc, parseHtml]
    exact htitle

/-- C7 (amended), witnessed at the concrete heading-less document: the
pipeline run succeeds with an empty title in one attempt. -/
theorem C7_no_heading_amended_witness :
    (∃ r, parseHtml docNoHeading = .ok r ∧ r.title = "" ∧ r.url = TARGET_URL)
    ∧ (scrapeWithRetry envNoProxy
        (fun _ => ⟨true, true, .response 200 docNoHeading, true, true⟩)).2.2 = 1
    ∧ (∃ r, (scrapeWithRetry envNoProxy
        (fun _ => ⟨true, true, .response 200 docNoHeading, true, true⟩)).1 = .ok r
        ∧ r.title = "") :=
  C7_no_heading_amended docNoHeading true true rfl

/-- C8: for every document with one heading element and three spans
whose trimmed texts are non-empty plus one span (in any position) whose
text trims to the empty string, extraction succeeds with the heading
text trimmed as the title and exactly the three non-empty trimmed span
texts, in document order, the empty one excluded. -/
theorem C8_extraction (t w s1 s2 s3 : String) (a b : List String)
    (hab : a ++ b = [s1, s2, s3])
    (h1 : 0 < (jsTrim s1).length) (h2 : 0 < (jsTrim s2).length)
    (h3 : 0 < (jsTrim s3).length) (hw : (jsTrim w).length = 0) :
    parseHtml { h1s := [t], spans := a ++ w :: b }
      = .ok { title := jsTrim t, spans := [jsTrim s1, jsTrim s2, jsTrim s3]
            , url := TARGET_URL } := by
  have hspans : ((a ++ w :: b).map jsTrim).filter (fun s => decide (0 < s.length))
      = [jsTrim s1, jsTrim s2, jsTrim s3] := by
    calc ((a ++ w :: b).map jsTrim).filter (fun s => decide (0 < s.length))
        = ((a.map jsTrim).filter (fun s => decide (0 < s.length)))
            ++ ((w :: b).map jsTrim).filter (fun s => decide (0 < s.length)) := by
          rw [List.map_append, List.filter_append]
      _ = ((a.map jsTrim).filter (fun s => decide (0 < s.length)))
            ++ (b.map jsTrim).filter (fun s => decide (0 < s.length)) := by
          rw [List.map_cons, List.filter_cons]
          simp [hw]
      _ = ((a ++ b).map jsTrim).filter (fun s => decide (0 < s.length)) := by
          rw [List.map_append, List.filter_append]
      _ = (([s1, s2, s3]).map jsTrim).filter (fun s => decide (0 < s.length)) := by
          rw [hab]
      _ = [jsTrim s1, jsTrim s2, jsTrim s3] := by
          simp [List.filter, h1, h2, h3]
  unfold parseHtml
  rw [hspans, join_singleton]

/-- C8, witnessed at a concrete document: one heading, three non-empty
spans and one whitespace-only span. -/
theorem C8_extraction_witness :
    parseHtml { h1s := [" Quotes "], spans := ["a ", " ", " b", "c"] }
      = .ok { title := "Quotes", spans := ["a", "b", "c"], url := TARGET_URL } :=
  C8_extraction " Quotes " " " "a " " b" "c" ["a "] [" b", "c"] rfl
    (by decide) (by decide) (by decide) (by decide)
